import Mathlib

/-!
Shallow embedding of `src/app.py` (TRAC Risk Detector): the rule-based risk
engine consisting of `analyze_address`, the deterministic activity simulator
(`hashlib.md5`-seeded), `analyze_message`, and the intent router
`parse_intent`.  Strings are modelled as `List Char`; Python's `str` methods
(`strip`, `lower`, `replace`, `in`) and the specific regular expressions used
by the source are modelled directly; machine words of MD5 are `Nat` reduced
mod 2^32.  Python's float division `(seed % 100000) / 1000` is modelled in
exact milli-units (`seed % 100000 : Nat`): for numerators below 100000 the
double rounding error is far below the 3-decimal formatting granularity, so
the observable behaviour (`balance == 0` test and `f"{balance:.3f}"`
rendering) coincides with fixed-point milli-units.
-/

namespace TracScam

/-! ### Python character helpers (ASCII semantics, as exercised by the source) -/

/-- Python `str.lower()` on a character (ASCII range). -/
def pyLower (c : Char) : Char :=
  if 'A' ≤ c ∧ c ≤ 'Z' then Char.ofNat (c.toNat + 32) else c

/-- Whitespace stripped by Python `str.strip()` (ASCII whitespace). -/
def pySpace (c : Char) : Bool :=
  c = ' ' ∨ c = '\t' ∨ c = '\n' ∨ c = '\x0d' ∨ c = '\x0b' ∨ c = '\x0c'

/-- Python regex `\w` word character (ASCII semantics). -/
def isWordChar (c : Char) : Bool :=
  ('a' ≤ c ∧ c ≤ 'z') ∨ ('A' ≤ c ∧ c ≤ 'Z') ∨ ('0' ≤ c ∧ c ≤ '9') ∨ c = '_'

/-- Lowercase hex digit, character class `[0-9a-f]`. -/
def isHexLower (c : Char) : Bool :=
  ('0' ≤ c ∧ c ≤ '9') ∨ ('a' ≤ c ∧ c ≤ 'f')

/-- Any-case hex digit, character class `[0-9a-fA-F]`. -/
def isHexAny (c : Char) : Bool :=
  ('0' ≤ c ∧ c ≤ '9') ∨ ('a' ≤ c ∧ c ≤ 'f') ∨ ('A' ≤ c ∧ c ≤ 'F')

/-- Character class `[a-km-zA-HJ-NP-Z1-9]` of the BTC legacy pattern. -/
def btcClass (c : Char) : Bool :=
  ('a' ≤ c ∧ c ≤ 'k') ∨ ('m' ≤ c ∧ c ≤ 'z') ∨ ('A' ≤ c ∧ c ≤ 'H') ∨
  ('J' ≤ c ∧ c ≤ 'N') ∨ ('P' ≤ c ∧ c ≤ 'Z') ∨ ('1' ≤ c ∧ c ≤ '9')

/-- Character class `[a-z0-9]` of the bech32 branch. -/
def bech32Class (c : Char) : Bool :=
  ('a' ≤ c ∧ c ≤ 'z') ∨ ('0' ≤ c ∧ c ≤ '9')

/-! ### Python string helpers over `List Char` -/

/-- Python `str.strip()`: drop leading and trailing whitespace. -/
def pyStrip (l : List Char) : List Char :=
  ((l.dropWhile pySpace).reverse.dropWhile pySpace).reverse

/-- Python `str.lower()` over a character list. -/
def pyLowerList (l : List Char) : List Char := l.map pyLower

/-- Python substring test `pat in hay`. -/
def containsSub (hay pat : List Char) : Bool :=
  match hay with
  | [] => pat.isEmpty
  | _ :: t => pat.isPrefixOf hay || containsSub t pat

/-- Python `str.replace("0x", "")`: remove every occurrence of the literal
substring `0x`, scanning left to right, non-overlapping. -/
def removeZeroX : List Char → List Char
  | '0' :: 'x' :: rest => removeZeroX rest
  | c :: rest => c :: removeZeroX rest
  | [] => []

/-- `str.count('0')` specialised to counting a single character. -/
def countChar (c : Char) (l : List Char) : Nat := l.count c

/-! ### MD5 (RFC 1321), words as `Nat` mod 2^32, used by the source via
`int(hashlib.md5(address.encode()).hexdigest(), 16)` -/

def w32 : Nat := 4294967296

def addw (x y : Nat) : Nat := (x + y) % w32

/-- Rotate a 32-bit word left by `s` bits. -/
def rotl32 (x s : Nat) : Nat := (x * 2 ^ s + x / 2 ^ (32 - s)) % w32

/-- Bitwise complement of a 32-bit word. -/
def not32 (x : Nat) : Nat := x ^^^ 4294967295

/-- MD5 round constants `K[i] = floor(2^32 * |sin(i+1)|)`. -/
def md5K : List Nat :=
  [3614090360, 3905402710, 606105819, 3250441966,
   4118548399, 1200080426, 2821735955, 4249261313,
   1770035416, 2336552879, 4294925233, 2304563134,
   1804603682, 4254626195, 2792965006, 1236535329,
   4129170786, 3225465664, 643717713, 3921069994,
   3593408605, 38016083, 3634488961, 3889429448,
   568446438, 3275163606, 4107603335, 1163531501,
   2850285829, 4243563512, 1735328473, 2368359562,
   4294588738, 2272392833, 1839030562, 4259657740,
   2763975236, 1272893353, 4139469664, 3200236656,
   681279174, 3936430074, 3572445317, 76029189,
   3654602809, 3873151461, 530742520, 3299628645,
   4096336452, 1126891415, 2878612391, 4237533241,
   1700485571, 2399980690, 4293915773, 2240044497,
   1873313359, 4264355552, 2734768916, 1309151649,
   4149444226, 3174756917, 718787259, 3951481745]

/-- MD5 per-round left-rotation amounts. -/
def md5S : List Nat :=
  [7, 12, 17, 22, 7, 12, 17, 22, 7, 12, 17, 22, 7, 12, 17, 22,
   5, 9, 14, 20, 5, 9, 14, 20, 5, 9, 14, 20, 5, 9, 14, 20,
   4, 11, 16, 23, 4, 11, 16, 23, 4, 11, 16, 23, 4, 11, 16, 23,
   6, 10, 15, 21, 6, 10, 15, 21, 6, 10, 15, 21, 6, 10, 15, 21]

/-- Nonlinear function and message index of round `i`. -/
def md5FG (i b c d : Nat) : Nat × Nat :=
  if i < 16 then ((b &&& c) ||| (not32 b &&& d), i)
  else if i < 32 then ((d &&& b) ||| (not32 d &&& c), (5 * i + 1) % 16)
  else if i < 48 then (b ^^^ c ^^^ d, (3 * i + 5) % 16)
  else (c ^^^ (b ||| not32 d), (7 * i) % 16)

/-- One MD5 round step on the state `(a, b, c, d)` with message block `m`. -/
def md5Step (m : List Nat) (st : Nat × Nat × Nat × Nat) (i : Nat) :
    Nat × Nat × Nat × Nat :=
  match st with
  | (a, b, c, d) =>
    let fg := md5FG i b c d
    let f := addw (addw (addw a fg.1) (md5K.getD i 0)) (m.getD fg.2 0)
    (d, addw b (rotl32 f (md5S.getD i 0)), b, c)

/-- Process one 16-word block, updating the chaining state. -/
def md5Block (st : Nat × Nat × Nat × Nat) (m : List Nat) :
    Nat × Nat × Nat × Nat :=
  match st with
  | (a0, b0, c0, d0) =>
    match (List.range 64).foldl (md5Step m) (a0, b0, c0, d0) with
    | (a, b, c, d) => (addw a0 a, addw b0 b, addw c0 c, addw d0 d)

/-- Group 4 little-endian bytes into each 32-bit word. -/
def leWords : List Nat → List Nat
  | b0 :: b1 :: b2 :: b3 :: rest =>
      (b0 + 256 * (b1 + 256 * (b2 + 256 * b3))) :: leWords rest
  | _ => []

/-- Process the padded byte stream 64 bytes at a time; `fuel` bounds the
number of blocks (structural recursion so the kernel can evaluate). -/
def md5Loop : Nat → Nat × Nat × Nat × Nat → List Nat → Nat × Nat × Nat × Nat
  | 0, st, _ => st
  | _ + 1, st, [] => st
  | fuel + 1, st, b :: rest =>
      md5Loop fuel (md5Block st (leWords ((b :: rest).take 64))) (rest.drop 63)

/-- 8 little-endian bytes of a 64-bit value. -/
def le64 (v : Nat) : List Nat :=
  [v % 256, v / 2 ^ 8 % 256, v / 2 ^ 16 % 256, v / 2 ^ 24 % 256,
   v / 2 ^ 32 % 256, v / 2 ^ 40 % 256, v / 2 ^ 48 % 256, v / 2 ^ 56 % 256]

/-- MD5 padding: 0x80, zeros to 56 mod 64, then the bit length. -/
def md5Pad (msg : List Nat) : List Nat :=
  msg ++ [128] ++ List.replicate ((119 - msg.length % 64) % 64) 0 ++
    le64 ((8 * msg.length) % 2 ^ 64)

/-- Byte-swap a 32-bit word (little-endian digest bytes read big-endian). -/
def bswap32 (x : Nat) : Nat :=
  x % 256 * 2 ^ 24 + x / 2 ^ 8 % 256 * 2 ^ 16 + x / 2 ^ 16 % 256 * 2 ^ 8 +
    x / 2 ^ 24 % 256

/-- UTF-8 encoding of one character, as Python `str.encode()`. -/
def utf8Char (c : Char) : List Nat :=
  let n := c.toNat
  if n < 128 then [n]
  else if n < 2048 then [192 + n / 64, 128 + n % 64]
  else if n < 65536 then [224 + n / 4096, 128 + n / 64 % 64, 128 + n % 64]
  else [240 + n / 262144, 128 + n / 4096 % 64, 128 + n / 64 % 64, 128 + n % 64]

/-- UTF-8 byte sequence of a string. -/
def utf8Bytes (l : List Char) : List Nat := (l.map utf8Char).flatten

/-- Assemble the final state into the hexdigest-as-integer value. -/
def digestOf : Nat × Nat × Nat × Nat → Nat
  | (a, b, c, d) =>
      bswap32 a * 2 ^ 96 + bswap32 b * 2 ^ 64 + bswap32 c * 2 ^ 32 + bswap32 d

/-- `int(hashlib.md5(s.encode()).hexdigest(), 16)`: the 128-bit MD5 digest of
the string, read as an unsigned integer from its hex rendering. -/
def md5Nat (s : List Char) : Nat :=
  let padded := md5Pad (utf8Bytes s)
  digestOf (md5Loop (padded.length / 64) (1732584193, 4023233417, 2562383102, 271733878)
    padded)

/-! ### Fixed configuration lists of the source -/

def KNOWN_SCAM_PATTERNS : List (List Char) :=
  ["0x000000000000000000000000000000000000dead".data,
   "0x0000000000000000000000000000000000000000".data]

def SUSPICIOUS_KEYWORDS : List (List Char) :=
  ["free".data, "airdrop".data, "100x".data, "guaranteed".data, "send eth".data,
   "double your".data, "connect wallet".data, "claim now".data,
   "limited time".data, "whitelist".data]

/-! ### Address format patterns (full anchored matches of `analyze_address`) -/

/-- `re.match(r'^0x[0-9a-f]{40}$', address)` on the normalized address. -/
def isEthMatch (l : List Char) : Bool :=
  decide (l.length = 42) && ['0', 'x'].isPrefixOf l && (l.drop 2).all isHexLower

/-- `re.match(r'^[13][a-km-zA-HJ-NP-Z1-9]{25,34}$|^bc1[a-z0-9]{39,59}$', address)`. -/
def isBtcMatch (l : List Char) : Bool :=
  (match l with
   | c :: rest =>
       (c == '1' || c == '3') && decide (25 ≤ rest.length) &&
         decide (rest.length ≤ 34) && rest.all btcClass
   | [] => false) ||
  (['b', 'c', '1'].isPrefixOf l && decide (39 ≤ (l.drop 3).length) &&
    decide ((l.drop 3).length ≤ 59) && (l.drop 3).all bech32Class)

/-! ### Deterministic activity simulator -/

/-- `seed = int(md5(address).hexdigest(), 16)`; then
`(seed % 5000, seed % 365, seed % 100000)`: transaction count, wallet age in
days, and the balance in exact milli-units (see header note on the float). -/
def simulateActivity (address : List Char) : Nat × Nat × Nat :=
  let seed := md5Nat address
  (seed % 5000, seed % 365, seed % 100000)

/-- Zero-pad a remainder below 1000 to three digits. -/
def pad3 (n : Nat) : String :=
  if n < 10 then "00" ++ toString n
  else if n < 100 then "0" ++ toString n
  else toString n

/-- `f"{balance:.3f}"` for `balance = m / 1000` with `m < 100000`. -/
def formatMilli (m : Nat) : String := toString (m / 1000) ++ "." ++ pad3 (m % 1000)

/-! ### Result shapes returned by the engine (Python dict values) -/

structure SimStats where
  estimated_tx_count : Nat
  wallet_age_days : Nat
  estimated_balance : String
deriving DecidableEq

/-- The `details` entry of an address result: the invalid branch of the
source stores a plain string there, the scoring branch stores a list. -/
inductive DetailsField where
  | str : String → DetailsField
  | list : List String → DetailsField
deriving DecidableEq

/-- Whether the `details` entry is a sequence of strings. -/
def DetailsField.isList : DetailsField → Bool
  | .str _ => false
  | .list _ => true

structure AddrResult where
  valid : Bool
  address : Option (List Char)
  type : Option String
  risk_score : Nat
  risk_level : String
  verdict : Option String
  flags : List String
  simulated_stats : Option SimStats
  details : DetailsField
deriving DecidableEq

structure MsgResult where
  type : String
  risk_score : Nat
  verdict : String
  flags : List String
deriving DecidableEq

/-! ### Flag and detail strings of `analyze_address` -/

def scamFlag : String := "⛔ Known scam/burn address"
def entropyFlag : String := "⚠️ Low entropy — suspicious character repetition"
def entropyDetail : String :=
  "Addresses with very few unique characters may be crafted to deceive."
def zerosFlag : String := "⚠️ High zero count — possible vanity/generated address"
def highTxFlag : String := "🚨 Abnormally high transaction frequency"
def highTxDetail (tx age : Nat) : String :=
  "~" ++ toString tx ++ " txs in " ++ toString age ++
    " days suggests bot or spam activity."
def newWalletFlag : String := "⚠️ Very new wallet with high activity"
def newWalletDetail : String :=
  "Newly created wallets with sudden high activity are common in scams."
def dustFlag : String :=
  "⚠️ Zero balance despite high transaction count — possible dust attacker"
def noFlagsSentinel : String := "No suspicious patterns detected."
def invalidDetails : String :=
  "Address format not recognized. Supported: ETH (0x...), BTC, TRAC."

/-! ### The six scoring conditions of `analyze_address`, on the normalized
address -/

def condScam (a : List Char) : Bool := decide (a ∈ KNOWN_SCAM_PATTERNS)

def uniqueChars (a : List Char) : Nat := (removeZeroX a).dedup.length

def condEntropy (a : List Char) : Bool := decide (uniqueChars a < 5)

def condZeros (a : List Char) : Bool := decide (10 < countChar '0' a)

def condHighTx (a : List Char) : Bool :=
  let s := simulateActivity a
  decide (2000 < s.1) && decide (s.2.1 < 30)

def condNewWallet (a : List Char) : Bool :=
  let s := simulateActivity a
  decide (s.2.1 < 7) && decide (100 < s.1)

def condDust (a : List Char) : Bool :=
  let s := simulateActivity a
  decide (s.2.2 = 0) && decide (500 < s.1)

/-- The high-to-low risk-level bucketing of `analyze_address`: level and
verdict for a clamped score. -/
def addrLevel (risk_score : Nat) : String × String :=
  if 70 ≤ risk_score then
    ("HIGH", "🔴 HIGH RISK — Avoid interaction with this address.")
  else if 40 ≤ risk_score then
    ("MEDIUM", "🟡 MEDIUM RISK — Proceed with caution.")
  else if 15 ≤ risk_score then
    ("LOW", "🟢 LOW RISK — Appears relatively safe, but always DYOR.")
  else
    ("SAFE", "✅ SAFE — No significant risk signals detected.")

/-- `analyze_address` of the source: normalize, gate on format, then the six
additive rules, clamp, bucket. -/
def analyze_address (raw : List Char) : AddrResult :=
  let address := pyLowerList (pyStrip raw)
  let is_eth := isEthMatch address
  let is_btc := isBtcMatch address
  if !is_eth && !is_btc && decide (address.length < 20) then
    { valid := false, address := none, type := none, risk_score := 0,
      risk_level := "UNKNOWN", verdict := none,
      flags := ["Invalid address format"],
      simulated_stats := none, details := .str invalidDetails }
  else
    let addr_type := if is_eth then "ETH" else if is_btc then "BTC" else "TRAC/OTHER"
    let s := simulateActivity address
    let tx_count := s.1
    let age_days := s.2.1
    let balance_milli := s.2.2
    let score1 := if condScam address then 90 else 0
    let flags1 : List String := if condScam address then [scamFlag] else []
    let score2 := score1 + if condEntropy address then 30 else 0
    let flags2 := flags1 ++ (if condEntropy address then [entropyFlag] else [])
    let details1 : List String := if condEntropy address then [entropyDetail] else []
    let score3 := score2 + if condZeros address then 20 else 0
    let flags3 := flags2 ++ (if condZeros address then [zerosFlag] else [])
    let score4 := score3 + if condHighTx address then 35 else 0
    let flags4 := flags3 ++ (if condHighTx address then [highTxFlag] else [])
    let details2 := details1 ++
      (if condHighTx address then [highTxDetail tx_count age_days] else [])
    let score5 := score4 + if condNewWallet address then 25 else 0
    let flags5 := flags4 ++ (if condNewWallet address then [newWalletFlag] else [])
    let details3 := details2 ++ (if condNewWallet address then [newWalletDetail] else [])
    let score6 := score5 + if condDust address then 15 else 0
    let flags6 := flags5 ++ (if condDust address then [dustFlag] else [])
    let risk_score := min score6 100
    let lv := addrLevel risk_score
    { valid := true, address := some address, type := some addr_type,
      risk_score := risk_score, risk_level := lv.1, verdict := some lv.2,
      flags := if flags6.isEmpty then [noFlagsSentinel] else flags6,
      simulated_stats :=
        some ⟨tx_count, age_days, formatMilli balance_milli⟩,
      details := .list details3 }

/-! ### Message scorer `analyze_message` -/

def suspKwFlag (kw : List Char) : String :=
  "⚠️ Suspicious keyword detected: \x27" ++ String.mk kw ++ "\x27"
def urlFlag (n : Nat) : String :=
  "🔗 Contains " ++ toString n ++ " URL(s) — verify before clicking"
def urgencyFlag : String :=
  "🚨 Urgency language detected — classic social engineering tactic"
def msgSentinel : String := "No obvious scam patterns detected."

/-- Regex `\S` (non-whitespace), ASCII semantics. -/
def pyNonSpace (c : Char) : Bool := !pySpace c

/-- Strip a literal prefix, returning the remainder on success. -/
def stripPre (pat l : List Char) : Option (List Char) :=
  if pat.isPrefixOf l then some (l.drop pat.length) else none

/-- One attempted match of `https?://\S+` anchored at the head of `l`
(greedy optional `s` with backtracking, greedy `\S+` requiring at least one
character); returns the remainder after the match. -/
def urlMatchAt (l : List Char) : Option (List Char) :=
  match stripPre ['h', 't', 't', 'p'] l with
  | none => none
  | some r1 =>
    let tryTail : List Char → Option (List Char) := fun r =>
      match stripPre [':', '/', '/'] r with
      | none => none
      | some r2 =>
        let body := r2.takeWhile pyNonSpace
        if body.isEmpty then none else some (r2.drop body.length)
    match r1 with
    | 's' :: r2 => (tryTail r2).orElse (fun _ => tryTail r1)
    | _ => tryTail r1

/-- `len(re.findall(r'https?://\S+', text))`: leftmost non-overlapping scan;
fuel-bounded structural recursion (every match consumes at least 8
characters, so `fuel = length` suffices). -/
def urlScanAux : Nat → List Char → Nat
  | 0, _ => 0
  | _ + 1, [] => 0
  | fuel + 1, c :: rest =>
    match urlMatchAt (c :: rest) with
    | some remaining => 1 + urlScanAux fuel remaining
    | none => urlScanAux fuel rest

def urlCount (text : List Char) : Nat := urlScanAux text.length text

/-- Urgency phrases of `r'\b(urgent|hurry|expire|last chance|act now)\b'`. -/
def urgencyPhrases : List (List Char) :=
  ["urgent".data, "hurry".data, "expire".data, "last chance".data, "act now".data]

/-- `\b` before the match: position 0 or a non-word predecessor (every
alternative starts with a word character). -/
def boundaryBefore : Option Char → Bool
  | none => true
  | some c => !isWordChar c

/-- `\b` after the match: end of input or a non-word successor (every
alternative ends with a word character). -/
def boundaryAfterL : List Char → Bool
  | [] => true
  | c :: _ => !isWordChar c

/-- Does some urgency alternative match anchored here, between boundaries? -/
def urgencyAt (prev : Option Char) (l : List Char) : Bool :=
  boundaryBefore prev &&
    urgencyPhrases.any (fun p => p.isPrefixOf l && boundaryAfterL (l.drop p.length))

/-- `re.search` of the urgency pattern as a Boolean: does it match at any
position? `prev` is the character before the current position. -/
def urgencySearch : Option Char → List Char → Bool
  | _, [] => false
  | prev, c :: rest => urgencyAt prev (c :: rest) || urgencySearch (some c) rest

/-- `analyze_message` of the source: keyword loop on the lower-cased text,
URL scan on the raw text, urgency search on the lower-cased text, clamp,
verdict. -/
def msgVerdict (risk_score : Nat) : String :=
  if 60 ≤ risk_score then "🔴 HIGH RISK message — likely a scam attempt."
  else if 30 ≤ risk_score then "🟡 SUSPICIOUS — contains multiple red flags."
  else "🟢 LOW RISK — no obvious scam indicators."

def analyze_message (text : List Char) : MsgResult :=
  let text_lower := pyLowerList text
  let kwAcc := SUSPICIOUS_KEYWORDS.foldl
    (fun acc kw =>
      if containsSub text_lower kw then (acc.1 + 15, acc.2 ++ [suspKwFlag kw])
      else acc)
    ((0 : Nat), ([] : List String))
  let urls := urlCount text
  let score2 := kwAcc.1 + if 0 < urls then 20 else 0
  let flags2 := kwAcc.2 ++ (if 0 < urls then [urlFlag urls] else [])
  let urg := urgencySearch none text_lower
  let score3 := score2 + if urg then 25 else 0
  let flags3 := flags2 ++ (if urg then [urgencyFlag] else [])
  let risk_score := min score3 100
  { type := "message_analysis", risk_score := risk_score,
    verdict := msgVerdict risk_score,
    flags := if flags3.isEmpty then [msgSentinel] else flags3 }

/-! ### Intent router `parse_intent` -/

/-- One attempted match of `0x[0-9a-fA-F]{40}` anchored at the head. -/
def ethSearchAt (l : List Char) : Option (List Char) :=
  match l with
  | '0' :: 'x' :: rest =>
    let h := rest.take 40
    if decide (h.length = 40) && h.all isHexAny then some ('0' :: 'x' :: h)
    else none
  | _ => none

/-- `re.search(r'0x[0-9a-fA-F]{40}', text)`: leftmost match. -/
def ethSearch : List Char → Option (List Char)
  | [] => none
  | c :: rest => (ethSearchAt (c :: rest)).orElse (fun _ => ethSearch rest)

/-- Greedy `{lo, k}` repetition of a character class followed by `\b`, with
backtracking: longest admissible count first. -/
def greedyLen (cls : Char → Bool) (body : List Char) (lo : Nat) :
    Nat → Option (List Char)
  | 0 => none
  | k + 1 =>
    if k + 1 < lo then none
    else
      let pre := body.take (k + 1)
      if decide (pre.length = k + 1) && pre.all cls &&
          boundaryAfterL (body.drop (k + 1)) then some pre
      else greedyLen cls body lo k

/-- One attempted match of
`\b[13][a-km-zA-HJ-NP-Z1-9]{25,34}\b|\bbc1[a-z0-9]{39,59}\b` anchored at the
current position, alternatives in order. -/
def btcMatchAt (prev : Option Char) (l : List Char) : Option (List Char) :=
  (match l with
   | c :: rest =>
     if boundaryBefore prev && (c == '1' || c == '3') then
       match greedyLen btcClass rest 25 34 with
       | some pre => some (c :: pre)
       | none => none
     else none
   | [] => none).orElse (fun _ =>
    if boundaryBefore prev && ['b', 'c', '1'].isPrefixOf l then
      match greedyLen bech32Class (l.drop 3) 39 59 with
      | some pre => some ('b' :: 'c' :: '1' :: pre)
      | none => none
    else none)

/-- `re.search` of the BTC pattern: leftmost match, tracking the previous
character for `\b`. -/
def btcSearch : Option Char → List Char → Option (List Char)
  | _, [] => none
  | prev, c :: rest =>
    (btcMatchAt prev (c :: rest)).orElse (fun _ => btcSearch (some c) rest)

inductive IntentResult where
  | address_check : AddrResult → IntentResult
  | message_check : MsgResult → IntentResult
  | help : String → IntentResult
deriving DecidableEq

def safetyPhrases : List (List Char) :=
  ["is this".data, "check this message".data, "is it safe".data, "scam?".data]

def greetingPhrases : List (List Char) :=
  ["hello".data, "hi".data, "help".data, "what can".data]

def helpMessage : String :=
  "👋 Welcome to **TRAC Risk Detector**!\n\n" ++
  "I can help you:\n" ++
  "• **Check a wallet address** — paste any ETH/BTC/TRAC address\n" ++
  "• **Analyze a suspicious message** — paste it and ask \x27is this safe?\x27\n" ++
  "• **Detect scam patterns** — I\x27ll flag keywords, urgency tactics, and more\n\n" ++
  "Try: \x60Check this address: 0x742d35Cc6634C0532925a3b8D4C9D4...\x60"

/-- `parse_intent` of the source: strip, search for an embedded address (ETH
preferred by `eth_match or btc_match`), else safety phrases, else greetings,
else default message analysis. -/
def parse_intent (user_input : List Char) : IntentResult :=
  let text := pyStrip user_input
  match ethSearch text with
  | some a => .address_check (analyze_address a)
  | none =>
    match btcSearch none text with
    | some a => .address_check (analyze_address a)
    | none =>
      let tl := pyLowerList text
      if safetyPhrases.any (fun w => containsSub tl w) then
        .message_check (analyze_message text)
      else if greetingPhrases.any (fun w => containsSub tl w) then
        .help helpMessage
      else
        .message_check (analyze_message text)

/-! ### Helper definitions for the theorems -/

/-- The format gate of `analyze_address` passes (the address is not rejected
as UNKNOWN): an ETH match, a BTC match, or length at least 20. -/
def passesGate (s : List Char) : Bool :=
  let a := pyLowerList (pyStrip s)
  isEthMatch a || isBtcMatch a || decide (20 ≤ a.length)

/-- The sum of the weights of the triggered rules, in source order. -/
def weightSum (b1 b2 b3 b4 b5 b6 : Bool) : Nat :=
  (if b1 then 90 else 0) + (if b2 then 30 else 0) + (if b3 then 20 else 0) +
  (if b4 then 35 else 0) + (if b5 then 25 else 0) + (if b6 then 15 else 0)

/-- The keywords of the fixed list that occur in the lower-cased text. -/
def kwHits (tl : List Char) : List (List Char) :=
  SUSPICIOUS_KEYWORDS.filter (fun kw => containsSub tl kw)

/-! ### Supporting lemmas -/

theorem bswap32_lt (x : Nat) : bswap32 x < 4294967296 := by
  unfold bswap32
  have h1 : x % 256 < 256 := Nat.mod_lt _ (by norm_num)
  have h2 : x / 2 ^ 8 % 256 < 256 := Nat.mod_lt _ (by norm_num)
  have h3 : x / 2 ^ 16 % 256 < 256 := Nat.mod_lt _ (by norm_num)
  have h4 : x / 2 ^ 24 % 256 < 256 := Nat.mod_lt _ (by norm_num)
  norm_num
  omega

theorem digestOf_lt (t : Nat × Nat × Nat × Nat) : digestOf t < 2 ^ 128 := by
  obtain ⟨a, b, c, d⟩ := t
  have ha := bswap32_lt a
  have hb := bswap32_lt b
  have hc := bswap32_lt c
  have hd := bswap32_lt d
  simp only [digestOf]
  norm_num
  omega

theorem md5Nat_lt (s : List Char) : md5Nat s < 2 ^ 128 := digestOf_lt _

/-- If the gate passes, the rejection condition of `analyze_address` is
false. -/
theorem gate_false_of_passes {s : List Char} (h : passesGate s = true) :
    (!isEthMatch (pyLowerList (pyStrip s)) && !isBtcMatch (pyLowerList (pyStrip s)) &&
      decide ((pyLowerList (pyStrip s)).length < 20)) = false := by
  simp only [passesGate] at h
  cases he : isEthMatch (pyLowerList (pyStrip s)) <;>
    cases hb : isBtcMatch (pyLowerList (pyStrip s)) <;>
      simp_all <;> omega

/-! ### Claim theorems -/

/-- C1: the activity simulator is a pure deterministic function of the
normalized address string: the seed is the 128-bit MD5 digest of the address
read as an unsigned integer, and the snapshot is exactly
`(seed mod 5000, seed mod 365, seed mod 100000)` — the last component being
the balance in exact three-decimal fixed-point milli-units; two evaluations
on the same input are identical. -/
theorem simulate_activity_deterministic (a : List Char) :
    simulateActivity a = (md5Nat a % 5000, md5Nat a % 365, md5Nat a % 100000)
    ∧ md5Nat a < 2 ^ 128
    ∧ (∀ b, a = b → simulateActivity a = simulateActivity b) :=
  ⟨rfl, md5Nat_lt a, fun _ h => h ▸ rfl⟩

/-- Witness for C1 at the concrete input `"abc"`. -/
theorem simulate_activity_deterministic_w :
    simulateActivity "abc".data =
      (md5Nat "abc".data % 5000, md5Nat "abc".data % 365, md5Nat "abc".data % 100000)
    ∧ simulateActivity "abc".data = simulateActivity "abc".data :=
  ⟨(simulate_activity_deterministic "abc".data).1,
   (simulate_activity_deterministic "abc".data).2.2 "abc".data rfl⟩

/-- C2: any input whose trimmed lower-cased form matches neither the ETH nor
the BTC pattern and has length below 20 yields the terminal non-scoring
result: `valid = false`, `risk_score = 0`, `risk_level = UNKNOWN`, the single
flag `Invalid address format`, and the explanatory detail string. -/
theorem invalid_format_terminal (s : List Char)
    (h1 : isEthMatch (pyLowerList (pyStrip s)) = false)
    (h2 : isBtcMatch (pyLowerList (pyStrip s)) = false)
    (h3 : (pyLowerList (pyStrip s)).length < 20) :
    analyze_address s =
      { valid := false, address := none, type := none, risk_score := 0,
        risk_level := "UNKNOWN", verdict := none,
        flags := ["Invalid address format"],
        simulated_stats := none, details := .str invalidDetails } := by
  simp [analyze_address, h1, h2, h3]

/-- Witness for C2 at the concrete input `"abc"`. -/
theorem invalid_format_terminal_w :
    analyze_address "abc".data =
      { valid := false, address := none, type := none, risk_score := 0,
        risk_level := "UNKNOWN", verdict := none,
        flags := ["Invalid address format"],
        simulated_stats := none, details := .str invalidDetails } :=
  invalid_format_terminal "abc".data (by decide) (by decide) (by decide)

/-- C4: the risk-level bucketing is non-overlapping and evaluated
high-to-low: for addresses, a score of 70 or above is HIGH, 40 to 69 is
MEDIUM, 15 to 39 is LOW, and 14 or below is SAFE; for messages, 60 or above
yields the HIGH-risk verdict, 30 to 59 the SUSPICIOUS verdict, and below 30
the LOW-risk verdict; each address level determines one fixed verdict
string. -/
theorem risk_bucketing (n : Nat) :
    ((70 ≤ n ↔ (addrLevel n).1 = "HIGH")
      ∧ ((40 ≤ n ∧ n < 70) ↔ (addrLevel n).1 = "MEDIUM")
      ∧ ((15 ≤ n ∧ n < 40) ↔ (addrLevel n).1 = "LOW")
      ∧ (n < 15 ↔ (addrLevel n).1 = "SAFE"))
    ∧ ((60 ≤ n ↔ msgVerdict n = "🔴 HIGH RISK message — likely a scam attempt.")
      ∧ ((30 ≤ n ∧ n < 60) ↔ msgVerdict n = "🟡 SUSPICIOUS — contains multiple red flags.")
      ∧ (n < 30 ↔ msgVerdict n = "🟢 LOW RISK — no obvious scam indicators."))
    ∧ (∀ m, (addrLevel n).1 = (addrLevel m).1 → (addrLevel n).2 = (addrLevel m).2) := by
  unfold addrLevel msgVerdict
  refine ⟨⟨?_, ?_, ?_, ?_⟩, ⟨?_, ?_, ?_⟩, ?_⟩
  · split_ifs <;> simp_all <;> omega
  · split_ifs <;> simp_all <;> omega
  · split_ifs <;> simp_all <;> omega
  · split_ifs <;> simp_all <;> omega
  · split_ifs <;> simp_all <;> omega
  · split_ifs <;> simp_all <;> omega
  · split_ifs <;> simp_all <;> omega
  · intro m
    split_ifs <;> simp_all

/-- Witness for C4 at the boundary score 70. -/
theorem risk_bucketing_w : (addrLevel 70).1 = "HIGH" :=
  (risk_bucketing 70).1.1.mp (by decide)

/-- C8: the router is total: every input produces exactly one intent variant
(`address_check`, `message_check`, or `help`; the constructors of
`IntentResult` are mutually exclusive), and the empty string falls through to
the default rule, scoring as a message with `risk_score = 0` and the single
sentinel flag. -/
theorem router_total_and_empty (s : List Char) :
    ((∃ r, parse_intent s = .address_check r)
      ∨ (∃ r, parse_intent s = .message_check r)
      ∨ (∃ m, parse_intent s = .help m))
    ∧ parse_intent [] = .message_check
        { type := "message_analysis", risk_score := 0,
          verdict := "🟢 LOW RISK — no obvious scam indicators.",
          flags := [msgSentinel] } := by
  constructor
  · cases h : parse_intent s with
    | address_check r => exact Or.inl ⟨r, rfl⟩
    | message_check r => exact Or.inr (Or.inl ⟨r, rfl⟩)
    | help m => exact Or.inr (Or.inr ⟨m, rfl⟩)
  · decide

/-- C10: when no address token is embedded and no safety phrase occurs,
greeting detection is plain substring containment on the lower-cased input;
any input containing `hello`, `hi`, `help` or `what can` anywhere returns the
static help payload. -/
theorem greeting_substring_help (s : List Char)
    (h1 : ethSearch (pyStrip s) = none)
    (h2 : btcSearch none (pyStrip s) = none)
    (h3 : safetyPhrases.any (fun w => containsSub (pyLowerList (pyStrip s)) w) = false)
    (h4 : greetingPhrases.any (fun w => containsSub (pyLowerList (pyStrip s)) w) = true) :
    parse_intent s = .help helpMessage := by
  simp [parse_intent, h1, h2, h3, h4]

/-- Witness for C10: the input `nothing` contains `hi` inside a word and is
routed to help. -/
theorem greeting_substring_help_w :
    containsSub (pyLowerList (pyStrip "nothing".data)) "hi".data = true
    ∧ parse_intent "nothing".data = .help helpMessage :=
  ⟨by decide,
   greeting_substring_help "nothing".data (by decide) (by decide) (by decide) (by decide)⟩

/-- C7 (amended): the router prefers an ETH-style match anywhere in the text
over any BTC-style match; only when no ETH-style token exists is the first
BTC-style match extracted; the extracted token is dispatched to the address
analyzer and wrapped as an `address_check` intent. -/
theorem router_eth_priority (t : List Char) :
    (∀ a, ethSearch (pyStrip t) = some a →
      parse_intent t = .address_check (analyze_address a))
    ∧ (ethSearch (pyStrip t) = none → ∀ a, btcSearch none (pyStrip t) = some a →
      parse_intent t = .address_check (analyze_address a)) := by
  constructor
  · intro a h
    simp [parse_intent, h]
  · intro h a hb
    simp [parse_intent, h, hb]

/-- Witness for C7 (amended): a BTC-only input dispatches its first BTC
match. -/
theorem router_eth_priority_w :
    parse_intent "pay 1BvBMSEYstWetqTFn5Au4m4GFg7xJaNVN2 now".data =
      .address_check (analyze_address "1BvBMSEYstWetqTFn5Au4m4GFg7xJaNVN2".data) :=
  (router_eth_priority "pay 1BvBMSEYstWetqTFn5Au4m4GFg7xJaNVN2 now".data).2
    (by decide) "1BvBMSEYstWetqTFn5Au4m4GFg7xJaNVN2".data (by decide)

/-- Input holding a BTC-style token strictly before an ETH-style token. -/
def ethPriorityInput : List Char :=
  "1BvBMSEYstWetqTFn5Au4m4GFg7xJaNVN2 0xaaaaaaaaaaaaaaaaaaaaaaaaaaaaaaaaaaaaaaaa".data

set_option maxRecDepth 1000000 in
/-- Counterexample to C7 as stated: both token kinds are present and the BTC
token occurs first in the text, yet the router analyzes the later ETH token,
not the earlier BTC one. -/
theorem router_first_match_cex :
    btcSearch none (pyStrip ethPriorityInput) =
      some "1BvBMSEYstWetqTFn5Au4m4GFg7xJaNVN2".data
    ∧ ethSearch (pyStrip ethPriorityInput) =
      some "0xaaaaaaaaaaaaaaaaaaaaaaaaaaaaaaaaaaaaaaaa".data
    ∧ parse_intent ethPriorityInput =
      .address_check (analyze_address "0xaaaaaaaaaaaaaaaaaaaaaaaaaaaaaaaaaaaaaaaa".data)
    ∧ parse_intent ethPriorityInput ≠
      .address_check (analyze_address "1BvBMSEYstWetqTFn5Au4m4GFg7xJaNVN2".data) := by
  refine ⟨by decide, by decide, by decide, by decide⟩

/-- Counterexample to C9 as stated: in the invalid-format branch the
`details` entry is a plain string, not an ordered sequence of strings. -/
theorem details_shape_cex :
    (analyze_address "abc".data).details.isList = false
    ∧ (analyze_address "abc".data).valid = false := by decide

/-- C9 (amended): every `analyze_address` result has a non-empty flags
sequence; a scoring (valid) result carries its details as an ordered
sequence of strings, while the invalid-format branch carries a single
explanatory string. -/
theorem flags_nonempty_details_shape (s : List Char) :
    (analyze_address s).flags ≠ []
    ∧ ((analyze_address s).valid = true → (analyze_address s).details.isList = true)
    ∧ ((analyze_address s).valid = false →
        (analyze_address s).details = .str invalidDetails) := by
  unfold analyze_address
  dsimp only
  split
  · simp [DetailsField.isList]
  · refine ⟨?_, fun _ => rfl, fun h => by simp at h⟩
    cases h1 : condScam (pyLowerList (pyStrip s)) <;>
    cases h2 : condEntropy (pyLowerList (pyStrip s)) <;>
    cases h3 : condZeros (pyLowerList (pyStrip s)) <;>
    cases h4 : condHighTx (pyLowerList (pyStrip s)) <;>
    cases h5 : condNewWallet (pyLowerList (pyStrip s)) <;>
    cases h6 : condDust (pyLowerList (pyStrip s)) <;>
    simp [h1, h2, h3, h4, h5, h6]

/-- Witness for C9 (amended) at the concrete invalid input `"zz"`. -/
theorem flags_nonempty_details_shape_w :
    (analyze_address "zz".data).flags ≠ []
    ∧ (analyze_address "zz".data).details = .str invalidDetails :=
  ⟨(flags_nonempty_details_shape "zz".data).1,
   (flags_nonempty_details_shape "zz".data).2.2 (by decide)⟩

/-! ### String disequality helpers (the dynamic flag and detail strings never
collide with the static ones: their first characters differ) -/

theorem ne_of_data_head {a b : String} {x y : Char}
    (ha : a.data.head? = some x) (hb : b.data.head? = some y) (hxy : x ≠ y) :
    a ≠ b := by
  intro h
  rw [h] at ha
  rw [ha] at hb
  exact hxy (Option.some.inj hb)

theorem head_of_append {s t : String} {x : Char}
    (h : s.data.head? = some x) : (s ++ t).data.head? = some x := by
  rw [String.data_append, List.head?_append, h]
  rfl

theorem highTxDetail_head (tx age : Nat) :
    (highTxDetail tx age).data.head? = some '~' := by
  unfold highTxDetail
  apply head_of_append
  apply head_of_append
  apply head_of_append
  apply head_of_append
  rfl

theorem highTxDetail_ne_entropyDetail (tx age : Nat) :
    highTxDetail tx age ≠ entropyDetail :=
  ne_of_data_head (highTxDetail_head tx age) rfl (by decide)

theorem suspKwFlag_head (kw : List Char) : (suspKwFlag kw).data.head? = some '⚠' := by
  unfold suspKwFlag
  apply head_of_append
  apply head_of_append
  rfl

theorem urlFlag_head (n : Nat) : (urlFlag n).data.head? = some '🔗' := by
  unfold urlFlag
  apply head_of_append
  apply head_of_append
  rfl

theorem suspKwFlag_ne_urlFlag (kw : List Char) (n : Nat) : suspKwFlag kw ≠ urlFlag n :=
  ne_of_data_head (suspKwFlag_head kw) (urlFlag_head n) (by decide)

theorem urgencyFlag_ne_urlFlag (n : Nat) : urgencyFlag ≠ urlFlag n :=
  ne_of_data_head rfl (urlFlag_head n) (by decide)

/-! ### Reduction lemmas shared by the scoring claims -/

/-- The keyword accumulation loop of `analyze_message` computes 15 points and
one flag per matching keyword, in list order. -/
theorem kwFoldAux (tl : List Char) (L : List (List Char)) (n : Nat) (fs : List String) :
    L.foldl (fun acc kw =>
        if containsSub tl kw then (acc.1 + 15, acc.2 ++ [suspKwFlag kw]) else acc) (n, fs) =
      (n + 15 * (L.filter (fun kw => containsSub tl kw)).length,
       fs ++ (L.filter (fun kw => containsSub tl kw)).map suspKwFlag) := by
  induction L generalizing n fs with
  | nil => simp
  | cons k L ih =>
    cases hk : containsSub tl k with
    | true =>
      have hf : List.filter (fun kw => containsSub tl kw) (k :: L) =
          k :: List.filter (fun kw => containsSub tl kw) L :=
        List.filter_cons_of_pos hk
      rw [List.foldl_cons, if_pos hk, ih, hf, Prod.mk.injEq]
      refine ⟨by simp only [List.length_cons]; omega, by simp⟩
    | false =>
      have hf : List.filter (fun kw => containsSub tl kw) (k :: L) =
          List.filter (fun kw => containsSub tl kw) L :=
        List.filter_cons_of_neg (by simp [hk])
      rw [List.foldl_cons, if_neg (by simp [hk]), ih, hf]

/-- Behind the format gate, the risk score of `analyze_address` is the
clamped weighted sum of the six trigger conditions. -/
theorem analyze_address_score_eq {s : List Char} (h : passesGate s = true) :
    (analyze_address s).risk_score =
      min (weightSum (condScam (pyLowerList (pyStrip s)))
        (condEntropy (pyLowerList (pyStrip s))) (condZeros (pyLowerList (pyStrip s)))
        (condHighTx (pyLowerList (pyStrip s))) (condNewWallet (pyLowerList (pyStrip s)))
        (condDust (pyLowerList (pyStrip s)))) 100 := by
  have hg := gate_false_of_passes h
  unfold analyze_address
  dsimp only
  rw [if_neg (by simp [hg])]
  rfl

/-- The entropy weight can be split off the weighted sum. -/
theorem weightSum_extract2 : ∀ b1 b2 b3 b4 b5 b6 : Bool,
    weightSum b1 b2 b3 b4 b5 b6 =
      (if b2 then 30 else 0) + weightSum b1 false b3 b4 b5 b6 := by decide

/-- C3: behind the format gate the final risk score is the sum of the
weights (90, 30, 20, 35, 25, 15) of exactly the triggered rules clamped to
100, hence lies in `[0, 100]`, and the clamped weighted sum is monotone in
the set of triggered conditions. -/
theorem risk_score_clamped_monotone (s : List Char) (h : passesGate s = true) :
    ((analyze_address s).risk_score =
      min (weightSum (condScam (pyLowerList (pyStrip s)))
        (condEntropy (pyLowerList (pyStrip s))) (condZeros (pyLowerList (pyStrip s)))
        (condHighTx (pyLowerList (pyStrip s))) (condNewWallet (pyLowerList (pyStrip s)))
        (condDust (pyLowerList (pyStrip s)))) 100)
    ∧ (analyze_address s).risk_score ≤ 100
    ∧ (∀ b1 b2 b3 b4 b5 b6 c1 c2 c3 c4 c5 c6 : Bool,
        (b1 = true → c1 = true) → (b2 = true → c2 = true) → (b3 = true → c3 = true) →
        (b4 = true → c4 = true) → (b5 = true → c5 = true) → (b6 = true → c6 = true) →
        min (weightSum b1 b2 b3 b4 b5 b6) 100 ≤ min (weightSum c1 c2 c3 c4 c5 c6) 100) := by
  refine ⟨analyze_address_score_eq h, ?_, ?_⟩
  · rw [analyze_address_score_eq h]
    exact Nat.min_le_right _ _
  · intro b1 b2 b3 b4 b5 b6 c1 c2 c3 c4 c5 c6 h1 h2 h3 h4 h5 h6
    have m : ∀ (b c : Bool) (w : Nat), (b = true → c = true) →
        (if b then w else 0) ≤ (if c then w else 0) := by
      intro b c w hbc
      cases b
      · simp
      · simp [hbc rfl]
    refine min_le_min ?_ (le_refl 100)
    unfold weightSum
    exact Nat.add_le_add (Nat.add_le_add (Nat.add_le_add (Nat.add_le_add
      (Nat.add_le_add (m _ _ _ h1) (m _ _ _ h2)) (m _ _ _ h3)) (m _ _ _ h4))
      (m _ _ _ h5)) (m _ _ _ h6)

set_option maxRecDepth 1000000 in
/-- Witness for C3 at a concrete gate-passing ETH-format address. -/
theorem risk_score_clamped_monotone_w :
    (analyze_address "0x7777777777777777777777777777777777777777".data).risk_score =
      min (weightSum
        (condScam (pyLowerList (pyStrip "0x7777777777777777777777777777777777777777".data)))
        (condEntropy (pyLowerList (pyStrip "0x7777777777777777777777777777777777777777".data)))
        (condZeros (pyLowerList (pyStrip "0x7777777777777777777777777777777777777777".data)))
        (condHighTx (pyLowerList (pyStrip "0x7777777777777777777777777777777777777777".data)))
        (condNewWallet (pyLowerList (pyStrip "0x7777777777777777777777777777777777777777".data)))
        (condDust (pyLowerList (pyStrip "0x7777777777777777777777777777777777777777".data)))) 100
    ∧ (analyze_address "0x7777777777777777777777777777777777777777".data).risk_score ≤ 100 :=
  ⟨(risk_score_clamped_monotone "0x7777777777777777777777777777777777777777".data
      (by decide)).1,
   (risk_score_clamped_monotone "0x7777777777777777777777777777777777777777".data
      (by decide)).2.1⟩

/-- C5: behind the format gate, the low-character-diversity rule counts the
distinct characters of the normalized address after removing every `0x`
occurrence; when fewer than 5 remain it adds exactly 30 to the clamped sum
and contributes exactly one flag and one explanatory detail, and otherwise
contributes nothing. -/
theorem entropy_rule_spec (s : List Char) (h : passesGate s = true) :
    ((analyze_address s).risk_score =
      min ((if condEntropy (pyLowerList (pyStrip s)) then 30 else 0) +
        weightSum (condScam (pyLowerList (pyStrip s))) false
          (condZeros (pyLowerList (pyStrip s))) (condHighTx (pyLowerList (pyStrip s)))
          (condNewWallet (pyLowerList (pyStrip s))) (condDust (pyLowerList (pyStrip s)))) 100)
    ∧ ((analyze_address s).flags.count entropyFlag =
        if condEntropy (pyLowerList (pyStrip s)) then 1 else 0)
    ∧ (∃ l, (analyze_address s).details = .list l ∧
        l.count entropyDetail = if condEntropy (pyLowerList (pyStrip s)) then 1 else 0) := by
  have hg := gate_false_of_passes h
  refine ⟨?_, ?_, ?_⟩
  · rw [analyze_address_score_eq h, weightSum_extract2]
  · unfold analyze_address
    dsimp only
    rw [if_neg (by simp [hg])]
    dsimp only
    cases h1 : condScam (pyLowerList (pyStrip s)) <;>
    cases h2 : condEntropy (pyLowerList (pyStrip s)) <;>
    cases h3 : condZeros (pyLowerList (pyStrip s)) <;>
    cases h4 : condHighTx (pyLowerList (pyStrip s)) <;>
    cases h5 : condNewWallet (pyLowerList (pyStrip s)) <;>
    cases h6 : condDust (pyLowerList (pyStrip s)) <;>
      simp only [h1, h2, h3, h4, h5, h6, if_true, if_false, List.nil_append,
        List.append_nil, List.isEmpty_cons, List.isEmpty_nil, Bool.false_eq_true,
        List.singleton_append, List.cons_append] <;>
      decide
  · unfold analyze_address
    dsimp only
    rw [if_neg (by simp [hg])]
    dsimp only
    refine ⟨_, rfl, ?_⟩
    have hne : ∀ tx age, ¬highTxDetail tx age = entropyDetail := fun tx age =>
      highTxDetail_ne_entropyDetail tx age
    have hne2 : ¬newWalletDetail = entropyDetail := by decide
    cases h2 : condEntropy (pyLowerList (pyStrip s)) <;>
    cases h4 : condHighTx (pyLowerList (pyStrip s)) <;>
    cases h5 : condNewWallet (pyLowerList (pyStrip s)) <;>
      simp [h2, h4, h5, List.count_append, List.count_singleton, List.count_cons,
        List.count_nil, hne, hne2]

set_option maxRecDepth 1000000 in
/-- Witness for C5 at a concrete low-diversity ETH-format address. -/
theorem entropy_rule_spec_w :
    (analyze_address "0xbbbbbbbbbbbbbbbbbbbbbbbbbbbbbbbbbbbbbbbb".data).flags.count
        entropyFlag =
      if condEntropy (pyLowerList (pyStrip "0xbbbbbbbbbbbbbbbbbbbbbbbbbbbbbbbbbbbbbbbb".data))
      then 1 else 0 :=
  (entropy_rule_spec "0xbbbbbbbbbbbbbbbbbbbbbbbbbbbbbbbbbbbbbbbb".data (by decide)).2.1

/-- Counterexample to C6 as stated: the URL rule of `analyze_message` scans
the raw text, not the lower-cased text; an upper-case `HTTP://x` contains a
URL token in its lower-cased form, yet the scorer adds nothing and raises no
URL flag. -/
theorem url_rule_lowercase_cex :
    containsSub (pyLowerList "HTTP://x".data) "http://".data = true
    ∧ (analyze_message "HTTP://x".data).risk_score = 0
    ∧ (analyze_message "HTTP://x".data).flags = [msgSentinel] := by decide

/-- C6 (amended): the keyword and urgency rules of the message scorer are
evaluated against the lower-cased text, but URL detection scans the raw
input text case-sensitively; when the raw text contains one or more
`http(s)://` tokens, exactly +20 is added once, with one flag reporting the
URL count. -/
theorem url_rule_raw_text (t : List Char) :
    ((analyze_message t).risk_score =
      min (15 * (kwHits (pyLowerList t)).length + (if 0 < urlCount t then 20 else 0) +
        (if urgencySearch none (pyLowerList t) then 25 else 0)) 100)
    ∧ (0 < urlCount t →
        (analyze_message t).flags.count (urlFlag (urlCount t)) = 1) := by
  constructor
  · unfold analyze_message
    dsimp only
    rw [kwFoldAux]
    dsimp only [kwHits]
    rw [Nat.zero_add]
  · intro hurl
    unfold analyze_message
    dsimp only
    rw [kwFoldAux]
    dsimp only
    rw [if_pos hurl]
    have h1 : (((SUSPICIOUS_KEYWORDS.filter
        (fun kw => containsSub (pyLowerList t) kw)).map suspKwFlag).count
          (urlFlag (urlCount t))) = 0 := by
      rw [List.count_eq_zero]
      intro hmem
      obtain ⟨kw, -, heq⟩ := List.mem_map.mp hmem
      exact suspKwFlag_ne_urlFlag kw (urlCount t) heq
    have h2 : ((if urgencySearch none (pyLowerList t) = true then [urgencyFlag]
        else []).count (urlFlag (urlCount t))) = 0 := by
      split
      · rw [List.count_singleton,
          if_neg (by simp [urgencyFlag_ne_urlFlag (urlCount t)])]
      · rfl
    rw [if_neg (by simp [List.isEmpty_iff])]
    simp [List.count_append, h1, h2, List.count_singleton]

/-- Witness for C6 (amended) at a concrete URL-bearing message. -/
theorem url_rule_raw_text_w :
    (analyze_message "see http://a.b".data).flags.count
      (urlFlag (urlCount "see http://a.b".data)) = 1 :=
  (url_rule_raw_text "see http://a.b".data).2 (by decide)

end TracScam
